import Mathlib

/-!
Verification of the domowik backend's amenity-enrichment / walkability-scoring
engine and the listing-synchronization pipeline, as a shallow embedding of
`backend/scraper/enricher.py`, `backend/scraper/run.py` and
`backend/app/services/poi_service.py`.

Conventions of the embedding:
* geographic coordinates and timestamps are rationals (`ℚ`); Python `int`
  values are `ℤ`;
* a Python value that may be absent (`None`, or a missing dict key) is an
  `Option`;
* a function that can raise a Python exception returns `Option`/`Except`,
  where `none`/`.error` means the call raised;
* Python truthiness tests on numbers (`if centroid_lat and ...`) are modelled
  explicitly: `0` is falsy.
-/

namespace Domowik

/-- One point of an Overpass `geometry` array (a dict with `lat`/`lon`). -/
structure Pt where
  lat : ℚ
  lon : ℚ
deriving DecidableEq, Repr

/-- An Overpass `bounds` object (`minlat`/`minlon`/`maxlat`/`maxlon`). -/
structure Bounds where
  minlat : ℚ
  minlon : ℚ
  maxlat : ℚ
  maxlon : ℚ
deriving DecidableEq, Repr

/-- The `type` field of a raw Overpass element (`el.get "type"`); `other`
covers a missing or unrecognized value. -/
inductive ElType
  | way
  | relation
  | node
  | other
deriving DecidableEq, Repr

/-- A raw Overpass element, as the dict shape `_extract_geometry` and the
category fetchers probe it: every key the code reads is optional. -/
structure Element where
  typ : ElType := .other
  geometry : Option (List Pt) := none
  bounds : Option Bounds := none
  lat : Option ℚ := none
  lon : Option ℚ := none
  center : Option Pt := none
  id : Option ℤ := none
  nameTag : Option String := none
  leisureTag : Option String := none
deriving DecidableEq, Repr

/-- A GeoJSON-like geometry value built by `_extract_geometry`: either a
single-ring Polygon (coordinates as `(lon, lat)` pairs) or a Point. -/
inductive Geom
  | polygon (ring : List (ℚ × ℚ))
  | point (lon lat : ℚ)
deriving DecidableEq, Repr

/-- Python truthiness of an optional number: `None` and `0` are falsy. -/
def truthyQ : Option ℚ → Bool
  | none => false
  | some v => v != 0

/-- Python truthiness of an optional integer: `None` and `0` are falsy. -/
def truthyZ : Option ℤ → Bool
  | none => false
  | some v => v != 0

/-- Python ring closure in `_extract_geometry`:
`if coords and coords[0] != coords[-1]: coords.append(coords[0])`. -/
def closeRing (coords : List (ℚ × ℚ)) : List (ℚ × ℚ) :=
  match coords with
  | [] => []
  | c :: _ => if coords.getLast? = some c then coords else coords ++ [c]

/-- Arithmetic mean of a list of rationals (`sum(xs) / len(xs)`). -/
def ratMean (xs : List ℚ) : ℚ :=
  xs.sum / (xs.length : ℚ)

/-- Result triple of `_extract_geometry`: `(geometry, centroid_lat, centroid_lng)`. -/
abbrev ExtractResult := Option Geom × Option ℚ × Option ℚ

/-- Embedding of `AmenityEnricher._extract_geometry` (enricher.py:124-163).
The outer `Option` models exceptions: `none` means the call raised — which
happens exactly when a `way` element carries an empty `geometry` array, since
the centroid computation `sum(lats) / len(lats)` divides by zero.
The branch structure mirrors the Python `if/elif` chain:
way-with-geometry, relation-with-bounds, node (with truthiness test on the
coordinates), bare `center` field, else nothing. -/
def extractGeometry (el : Element) : Option ExtractResult :=
  match el.typ, el.geometry with
  | .way, some pts =>
    if pts.isEmpty then
      none
    else
      let coords := pts.map fun p => (p.lon, p.lat)
      some (some (Geom.polygon (closeRing coords)),
            some (ratMean (pts.map Pt.lat)),
            some (ratMean (pts.map Pt.lon)))
  | ty, _ =>
    match ty, el.bounds with
    | .relation, some b =>
      let clat := (b.minlat + b.maxlat) / 2
      let clon := (b.minlon + b.maxlon) / 2
      some (some (Geom.point clon clat), some clat, some clon)
    | ty2, _ =>
      if ty2 = .node then
        if truthyQ el.lat && truthyQ el.lon then
          some (some (Geom.point (el.lon.getD 0) (el.lat.getD 0)), el.lat, el.lon)
        else
          some (none, el.lat, el.lon)
      else
        match el.center with
        | some c => some (some (Geom.point c.lon c.lat), some c.lat, some c.lon)
        | none => some (none, none, none)

/-- One amenity dict as built by the category fetchers and consumed by the
scorer.  Every field is optional because the scorer reads these as plain dicts
(`p.get("distance_m", 9999)`); the fetchers always populate all keys. -/
structure PoiDict where
  osm_id : Option ℤ := none
  name : Option String := none
  typ : Option String := none
  distance_m : Option ℤ := none
  geometry : Option Geom := none
  centroid_lat : Option ℚ := none
  centroid_lng : Option ℚ := none
deriving DecidableEq, Repr

/-- Embedding of the pydantic `AmenityData` model (enricher.py:17-25), with the
pydantic field defaults. -/
structure AmenityData where
  nearest_park_m : Option ℤ := none
  nearest_coffee_m : Option ℤ := none
  nearest_dog_park_m : Option ℤ := none
  parks : List PoiDict := []
  coffee_shops : List PoiDict := []
  dog_parks : List PoiDict := []
  walkability_score : ℤ := 0
  amenity_score : ℤ := 0
deriving DecidableEq, Repr

/-- An `AmenityData()` with no amenities in any category. -/
def emptyAmenityData : AmenityData := {}

/-- Embedding of `calculate_walkability_score` (enricher.py:44-99), following
the Python statement by statement (sequential `score +=` steps, then
`min(score, 100)`). -/
def calculate_walkability_score (d : AmenityData) : ℤ :=
  let score : ℤ := 0
  let score := score +
    (match d.nearest_park_m with
     | some m => if m ≤ 200 then 20 else if m ≤ 500 then 15 else if m ≤ 1000 then (10 : ℤ) else 0
     | none => 0)
  let parks_within_1km : ℤ := ((d.parks.filter fun p => p.distance_m.getD 9999 ≤ 1000).length : ℤ)
  let score := score + min (parks_within_1km * 2) 10
  let score := score +
    (match d.nearest_coffee_m with
     | some m => if m ≤ 150 then 15 else if m ≤ 300 then 12 else if m ≤ 500 then (8 : ℤ) else 0
     | none => 0)
  let cafes_within_500m : ℤ := ((d.coffee_shops.filter fun c => c.distance_m.getD 9999 ≤ 500).length : ℤ)
  let score := score + min (cafes_within_500m * 2) 10
  let score := score +
    (match d.nearest_dog_park_m with
     | some m => if m ≤ 500 then 15 else if m ≤ 1000 then 10 else if m ≤ 2000 then (5 : ℤ) else 0
     | none => 0)
  let has_park := match d.nearest_park_m with | some m => decide (m ≤ 1000) | none => false
  let has_coffee := match d.nearest_coffee_m with | some m => decide (m ≤ 500) | none => false
  let has_dog_park := match d.nearest_dog_park_m with | some m => decide (m ≤ 2000) | none => false
  let score := score +
    (if has_park && has_coffee && has_dog_park then (20 : ℤ)
     else if has_park && has_coffee then 10
     else if has_park || has_coffee then 5
     else 0)
  min score 100

/-- Spec formula, nearest-park tier: `≤200m → +20, ≤500m → +15, ≤1000m → +10,
else +0, None → +0`. -/
def specParkTier : Option ℤ → ℤ
  | none => 0
  | some m => if m ≤ 200 then 20 else if m ≤ 500 then 15 else if m ≤ 1000 then 10 else 0

/-- Spec formula, nearest-coffee tier: `≤150m → +15, ≤300m → +12, ≤500m → +8,
else +0, None → +0`. -/
def specCoffeeTier : Option ℤ → ℤ
  | none => 0
  | some m => if m ≤ 150 then 15 else if m ≤ 300 then 12 else if m ≤ 500 then 8 else 0

/-- Spec formula, nearest-dog-park tier: `≤500m → +15, ≤1000m → +10,
≤2000m → +5, else +0, None → +0`. -/
def specDogParkTier : Option ℤ → ℤ
  | none => 0
  | some m => if m ≤ 500 then 15 else if m ≤ 1000 then 10 else if m ≤ 2000 then 5 else 0

/-- Spec formula: `+2` per listed feature within `r` meters, capped at `+10`
(a listed dict without a distance counts as 9999 m away, i.e. never counts). -/
def specPerFeatureBonus (r : ℤ) (features : List PoiDict) : ℤ :=
  min (((features.filter fun p => p.distance_m.getD 9999 ≤ r).length : ℤ) * 2) 10

/-- Spec formula, mutually exclusive combination bonus evaluated in order:
`+20` if park ≤ 1000 and coffee ≤ 500 and dog park ≤ 2000; else `+10` if park
and coffee; else `+5` if park or coffee; else `+0`. -/
def specComboBonus (d : AmenityData) : ℤ :=
  let park := match d.nearest_park_m with | some m => decide (m ≤ 1000) | none => false
  let coffee := match d.nearest_coffee_m with | some m => decide (m ≤ 500) | none => false
  let dog := match d.nearest_dog_park_m with | some m => decide (m ≤ 2000) | none => false
  if park && coffee && dog then 20
  else if park && coffee then 10
  else if park || coffee then 5
  else 0

/-- The walkability score exactly as the spec words it: the six additive
contributions, with the running total capped at 100. -/
def specWalkabilityScore (d : AmenityData) : ℤ :=
  min (specParkTier d.nearest_park_m
       + specPerFeatureBonus 1000 d.parks
       + specCoffeeTier d.nearest_coffee_m
       + specPerFeatureBonus 500 d.coffee_shops
       + specDogParkTier d.nearest_dog_park_m
       + specComboBonus d) 100

/-- Exceptions that can escape `_query_overpass` and the category fetchers:
`jsonDecodeError` from `response.json()` on an unparseable body,
`attributeError` from `data.get(...)` when the body parses to a non-object,
`zeroDivisionError` from `_extract_geometry` on a way with an empty geometry
array.  (`httpx.HTTPError` is caught inside `_query_overpass` and is therefore
not represented here.) -/
inductive QErr
  | jsonDecodeError
  | attributeError
  | zeroDivisionError
deriving DecidableEq, Repr

/-- Outcome of one POST to the Overpass endpoint, as `_query_overpass`
distinguishes them:
* `httpError` — any `httpx.HTTPError`: a non-2xx status (raised by
  `raise_for_status`), a timeout, or a transport failure;
* `badJson` — a 2xx response whose body is not parseable JSON;
* `nonObjectJson` — a 2xx response whose body parses to a non-object;
* `objectJson elements` — a 2xx JSON object, with or without an `elements`
  array. -/
inductive QueryResp
  | httpError
  | badJson
  | nonObjectJson
  | objectJson (elements : Option (List Element))
deriving DecidableEq, Repr

/-- Embedding of `AmenityEnricher._query_overpass` (enricher.py:109-122).
The `try`/`except httpx.HTTPError` catches exactly the `httpError` outcome and
returns `[]`; `response.json()` on an unparseable body raises
`json.JSONDecodeError`, and `data.get("elements", [])` on a non-dict raises
`AttributeError` — neither is an `httpx.HTTPError`, so both escape. -/
def queryOverpass : QueryResp → Except QErr (List Element)
  | .httpError => .ok []
  | .badJson => .error .jsonDecodeError
  | .nonObjectJson => .error .attributeError
  | .objectJson none => .ok []
  | .objectJson (some els) => .ok els

/-- Python `str.title()` on ASCII text: the first cased character of every
run of letters is uppercased, the rest lowercased. -/
def pyTitleGo : Bool → List Char → List Char
  | _, [] => []
  | prevAlpha, c :: cs =>
    (if c.isAlpha then (if prevAlpha then c.toLower else c.toUpper) else c)
      :: pyTitleGo c.isAlpha cs

/-- Python `str.title()`. -/
def pyTitle (s : String) : String :=
  ⟨pyTitleGo false s.data⟩

/-- The distance computation used by the fetchers:
`int(haversine_distance(lat, lng, centroid_lat, centroid_lng))`.  The trig of
`haversine_distance` is over IEEE floats and is kept abstract; every theorem
below holds for an arbitrary distance function. -/
abbrev DistFn := ℚ → ℚ → ℚ → ℚ → ℤ

/-- Loop body of `get_nearby_parks` (enricher.py:183-198) for one element:
`some none` means the element was dropped by the truthiness filter
`if centroid_lat and centroid_lng and osm_id and geometry`, `none` means
`_extract_geometry` raised. -/
def parkOfElement (dist : DistFn) (lat lng : ℚ) (el : Element) : Option (Option PoiDict) :=
  match extractGeometry el with
  | none => none
  | some (geometry, clat, clng) =>
    if truthyQ clat && truthyQ clng && truthyZ el.id && geometry.isSome then
      let leisure := el.leisureTag.getD "park"
      some (some
        { osm_id := el.id
          name := some (el.nameTag.getD ("Unnamed " ++ pyTitle leisure))
          typ := some leisure
          distance_m := some (dist lat lng (clat.getD 0) (clng.getD 0))
          geometry := geometry
          centroid_lat := clat
          centroid_lng := clng })
    else
      some none

/-- Loop body of `get_nearby_coffee_shops` (enricher.py:219-233) for one
element. -/
def cafeOfElement (dist : DistFn) (lat lng : ℚ) (el : Element) : Option (Option PoiDict) :=
  match extractGeometry el with
  | none => none
  | some (geometry, clat, clng) =>
    if truthyQ clat && truthyQ clng && truthyZ el.id && geometry.isSome then
      some (some
        { osm_id := el.id
          name := some (el.nameTag.getD "Unnamed Cafe")
          typ := some "coffee_shop"
          distance_m := some (dist lat lng (clat.getD 0) (clng.getD 0))
          geometry := geometry
          centroid_lat := clat
          centroid_lng := clng })
    else
      some none

/-- Loop body of `get_nearby_dog_parks` (enricher.py:253-267) for one
element. -/
def dogParkOfElement (dist : DistFn) (lat lng : ℚ) (el : Element) : Option (Option PoiDict) :=
  match extractGeometry el with
  | none => none
  | some (geometry, clat, clng) =>
    if truthyQ clat && truthyQ clng && truthyZ el.id && geometry.isSome then
      some (some
        { osm_id := el.id
          name := some (el.nameTag.getD "Unnamed Dog Park")
          typ := some "dog_park"
          distance_m := some (dist lat lng (clat.getD 0) (clng.getD 0))
          geometry := geometry
          centroid_lat := clat
          centroid_lng := clng })
    else
      some none

/-- The fetchers' accumulation loop: apply the per-element body in order,
keeping the kept dicts and propagating a raised exception (`none`). -/
def collectFeatures (mk : Element → Option (Option PoiDict)) : List Element → Option (List PoiDict)
  | [] => some []
  | el :: rest =>
    match mk el with
    | none => none
    | some kept =>
      match collectFeatures mk rest with
      | none => none
      | some fs =>
        match kept with
        | some f => some (f :: fs)
        | none => some fs

/-- The sort key comparison of `sorted(xs, key=lambda x: x["distance_m"])`.
Every dict built by the fetchers carries the `distance_m` key. -/
def distLE (a b : PoiDict) : Bool :=
  a.distance_m.getD 0 ≤ b.distance_m.getD 0

/-- `sorted(xs, key=lambda x: x["distance_m"])`: stable ascending sort by
distance. -/
def sortByDistance (xs : List PoiDict) : List PoiDict :=
  xs.mergeSort distLE

/-- Common shape of the three category fetchers: query, build the dict per
element (propagating a raised `ZeroDivisionError` from `_extract_geometry`),
sort by distance. -/
def fetchCategory (mk : Element → Option (Option PoiDict)) (resp : QueryResp) :
    Except QErr (List PoiDict) :=
  match queryOverpass resp with
  | .error e => .error e
  | .ok els =>
    match collectFeatures mk els with
    | none => .error .zeroDivisionError
    | some xs => .ok (sortByDistance xs)

/-- Embedding of `AmenityEnricher.get_nearby_parks` (enricher.py:165-200),
with the network replaced by the response outcome and the float haversine by
an abstract `DistFn`. -/
def get_nearby_parks (dist : DistFn) (lat lng : ℚ) (resp : QueryResp) :
    Except QErr (List PoiDict) :=
  fetchCategory (parkOfElement dist lat lng) resp

/-- Embedding of `AmenityEnricher.get_nearby_coffee_shops`
(enricher.py:202-235). -/
def get_nearby_coffee_shops (dist : DistFn) (lat lng : ℚ) (resp : QueryResp) :
    Except QErr (List PoiDict) :=
  fetchCategory (cafeOfElement dist lat lng) resp

/-- Embedding of `AmenityEnricher.get_nearby_dog_parks`
(enricher.py:237-269). -/
def get_nearby_dog_parks (dist : DistFn) (lat lng : ℚ) (resp : QueryResp) :
    Except QErr (List PoiDict) :=
  fetchCategory (dogParkOfElement dist lat lng) resp

/-- Embedding of `AmenityEnricher.enrich` (enricher.py:271-292).  The three
category queries run under `asyncio.gather`; their results are assembled into
`AmenityData` (lists truncated to 10/10/5, nearest distances from index 0 of
each full sorted list), then `walkability_score` and `amenity_score` are both
set to `calculate_walkability_score` of the assembled data.  An exception in
any category propagates out of `gather` and hence out of `enrich`. -/
def enrich (dist : DistFn) (lat lng : ℚ) (respParks respCafes respDogs : QueryResp) :
    Except QErr AmenityData :=
  match get_nearby_parks dist lat lng respParks with
  | .error e => .error e
  | .ok parks =>
    match get_nearby_coffee_shops dist lat lng respCafes with
    | .error e => .error e
    | .ok cafes =>
      match get_nearby_dog_parks dist lat lng respDogs with
      | .error e => .error e
      | .ok dogs =>
        let data : AmenityData :=
          { parks := parks.take 10
            coffee_shops := cafes.take 10
            dog_parks := dogs.take 5
            nearest_park_m := parks.head?.bind PoiDict.distance_m
            nearest_coffee_m := cafes.head?.bind PoiDict.distance_m
            nearest_dog_park_m := dogs.head?.bind PoiDict.distance_m }
        let score := calculate_walkability_score data
        .ok { data with walkability_score := score, amenity_score := score }

/-- Listing lifecycle status (`status` column; the pipeline only ever writes
`"active"` and `"delisted"`). -/
inductive LStatus
  | active
  | delisted
deriving DecidableEq, Repr

/-- The opaque raw listing payload (`raw_data` JSONB column). -/
abbrev RawPayload := List (String × String)

/-- Embedding of the persisted `Listing` ORM model
(app/models/listing.py:15-33).  Timestamps are rationals (seconds);
`location` is the nullable `(longitude, latitude)` point; `listing_date` is a
rational timestamp as well. -/
structure Listing where
  mls_id : String
  url : String
  address : String
  city : String
  location : Option (ℚ × ℚ) := none
  price : ℤ
  bedrooms : Option ℤ := none
  bathrooms : Option ℤ := none
  sqft : Option ℤ := none
  property_type : Option String := none
  listing_date : Option ℚ := none
  first_seen : ℚ
  last_seen : Option ℚ
  status : LStatus
  raw_data : Option RawPayload := none
deriving DecidableEq, Repr

/-- Embedding of the scraped record `ScrapedListing`
(scraper/realtor_ca.py:26-39). -/
structure ScrapedListing where
  mls_id : String
  url : String
  address : String
  city : String
  latitude : ℚ
  longitude : ℚ
  price : ℤ
  bedrooms : Option ℤ := none
  bathrooms : Option ℤ := none
  sqft : Option ℤ := none
  property_type : Option String := none
  listing_date : Option ℚ := none
  raw_data : RawPayload := []
deriving DecidableEq, Repr

/-- The update branch of `upsert_listing` (run.py:31-38): overwrite `price`,
`last_seen`, `raw_data`, and flip `delisted` back to `active`; every other
field of the existing row is left as it was. -/
def updateExisting (l : Listing) (s : ScrapedListing) (now : ℚ) : Listing :=
  { l with
    price := s.price
    last_seen := some now
    raw_data := some s.raw_data
    status := if l.status = .delisted then .active else l.status }

/-- The create branch of `upsert_listing` (run.py:40-61): a fresh row with
every field taken from the scraped record, `status="active"`, the location
point built from the scraped coordinates, and the column defaults
`first_seen = last_seen = now`. -/
def newListing (s : ScrapedListing) (now : ℚ) : Listing :=
  { mls_id := s.mls_id
    url := s.url
    address := s.address
    city := s.city
    location := some (s.longitude, s.latitude)
    price := s.price
    bedrooms := s.bedrooms
    bathrooms := s.bathrooms
    sqft := s.sqft
    property_type := s.property_type
    listing_date := s.listing_date
    first_seen := now
    last_seen := some now
    status := .active
    raw_data := some s.raw_data }

/-- Replace the first entry satisfying `p` by its image under `f` (the single
ORM object mutated by the update branch). -/
def replaceFirst (p : Listing → Bool) (f : Listing → Listing) : List Listing → List Listing
  | [] => []
  | l :: ls => if p l then f l :: ls else l :: replaceFirst p f ls

/-- Embedding of `upsert_listing` (run.py:24-61) over a list-of-rows store:
look up by `mls_id` (`scalar_one_or_none` under the unique constraint); if
present, mutate that row and return `(store, row, False)`; if absent, add a
new row and return `(store, row, True)`. -/
def upsert_listing (db : List Listing) (s : ScrapedListing) (now : ℚ) :
    List Listing × Listing × Bool :=
  match db.find? (fun l => l.mls_id == s.mls_id) with
  | some l =>
    (replaceFirst (fun l2 => l2.mls_id == s.mls_id) (fun l2 => updateExisting l2 s now) db,
     updateExisting l s now, false)
  | none =>
    (db ++ [newListing s now], newListing s now, true)

/-- The guard of the `mark_delisted` loop (run.py:118-125): the listing is
`active` (the SQL query's filter), its `mls_id` is not in the seen set, its
`last_seen` is not null, and `(now - last_seen).total_seconds() / 3600 > 48`. -/
def delistCond (seen : List String) (now : ℚ) (l : Listing) : Bool :=
  l.status = .active
    && !(seen.contains l.mls_id)
    && (match l.last_seen with
        | none => false
        | some t => decide ((now - t) / 3600 > 48))

/-- Per-listing effect of `mark_delisted` (run.py:106-127): a listing passing
the guard becomes `delisted`; everything else is untouched. -/
def markDelistedOne (seen : List String) (now : ℚ) (l : Listing) : Listing :=
  if delistCond seen now l then { l with status := .delisted } else l

/-- Embedding of `mark_delisted` (run.py:106-127) over the whole store (the
SQL query selects the `active` rows; the per-row guard repeats that
condition). -/
def mark_delisted (seen : List String) (now : ℚ) (db : List Listing) : List Listing :=
  db.map (markDelistedOne seen now)

/-- A row of the `points_of_interest` table (app/models/poi.py:8-18). -/
structure POIRow where
  id : ℤ
  osm_id : ℤ
  typ : String
  name : Option String
  geometry : Geom
deriving DecidableEq, Repr

/-- A row of the `listing_pois` link table (app/models/poi.py:25-34); primary
key `(listing_id, poi_id)`. -/
structure LinkRow where
  listing_id : ℤ
  poi_id : ℤ
  distance_m : ℤ
deriving DecidableEq, Repr

/-- The store touched by `upsert_pois_for_listing`: the two tables plus the
id sequence backing `points_of_interest.id`. -/
structure PoiDB where
  pois : List POIRow
  links : List LinkRow
  nextId : ℤ
deriving DecidableEq, Repr

/-- One input dict of `upsert_pois_for_listing`: the keys the service reads
(`osm_id`, `type`, `geometry`, `distance_m` by subscript, `name` by `.get`). -/
structure PoiInput where
  osm_id : ℤ
  typ : String
  name : Option String := none
  geometry : Geom
  distance_m : ℤ
deriving DecidableEq, Repr

/-- `SELECT id FROM points_of_interest WHERE osm_id = :osm` (poi_service.py:36-39). -/
def findPoiId (pois : List POIRow) (osm : ℤ) : Option ℤ :=
  (pois.find? fun p => p.osm_id == osm).map POIRow.id

/-- `INSERT ... ON CONFLICT (listing_id, poi_id) DO UPDATE SET distance_m`
(poi_service.py:57-65): update the conflicting row if the pair exists,
insert otherwise. -/
def upsertLink (links : List LinkRow) (lid pid d : ℤ) : List LinkRow :=
  if links.any fun r => r.listing_id == lid && r.poi_id == pid then
    links.map fun r =>
      if r.listing_id == lid && r.poi_id == pid then { r with distance_m := d } else r
  else
    links ++ [⟨lid, pid, d⟩]

/-- The per-feature loop of `upsert_pois_for_listing` (poi_service.py:32-65):
find-or-insert the POI by `osm_id`, then upsert the listing link with the
feature's distance, accumulating the POI ids in input order. -/
def upsertPoisGo (lid : ℤ) : PoiDB → List PoiInput → PoiDB × List ℤ
  | db, [] => (db, [])
  | db, p :: rest =>
    let found := findPoiId db.pois p.osm_id
    let db1 : PoiDB :=
      match found with
      | some _ => db
      | none =>
        { db with
          pois := db.pois ++ [⟨db.nextId, p.osm_id, p.typ, p.name, p.geometry⟩]
          nextId := db.nextId + 1 }
    let pid := match found with | some i => i | none => db.nextId
    let db2 : PoiDB := { db1 with links := upsertLink db1.links lid pid p.distance_m }
    let (db3, ids) := upsertPoisGo lid db2 rest
    (db3, pid :: ids)

/-- Embedding of `upsert_pois_for_listing` (poi_service.py:11-67); the early
`if not pois: return []` coincides with the empty-list case of the loop. -/
def upsert_pois_for_listing (db : PoiDB) (listing_id : ℤ) (pois : List PoiInput) :
    PoiDB × List ℤ :=
  upsertPoisGo listing_id db pois

/-- Modelled from the spec: the rate-limited remote operating mode of the
amenity query client (spec §4.3) is not present under `src/` — the checked-in
`AmenityEnricher` is the local/unthrottled variant, and §9 notes the remote
variant lives only in the source history.  Outcomes of one remote request:
a success, a retryable HTTP status (429/502/503/504), a timeout, or any other
HTTP error. -/
inductive RemoteOutcome
  | ok (els : List Element)
  | retryableStatus
  | timeout
  | otherHttpError
deriving DecidableEq, Repr

/-- Modelled from the spec: minimum inter-request spacing of the rate-limited
remote mode (≥ 1.5 s before every request). -/
def minSpacing : ℚ := 3 / 2

/-- Modelled from the spec: the time at which the next outbound request can
fire — the client first waits out the minimum inter-request spacing measured
from the previous request (process-wide shared state). -/
def remoteAttemptTime (now lastReq : ℚ) : ℚ :=
  max now (lastReq + minSpacing)

/-- Modelled from the spec: one query in the rate-limited remote mode, the
3-attempt retry loop unrolled.  `outcome k` is what attempt number `k`
receives.  Before every request the client waits out the minimum spacing.  On
a retryable status (429/502/503/504) or a timeout it sleeps the backoff delay
`base * 2 ^ attempt + jitter attempt` and retries, up to 3 attempts total,
then returns `[]`; on any other HTTP error it returns `[]` immediately with
no retry.  Returns the result and the list of request fire times. -/
def remoteQuery (outcome : ℕ → RemoteOutcome) (base : ℚ) (jitter : ℕ → ℚ)
    (now lastReq : ℚ) : List Element × List ℚ :=
  let t0 := remoteAttemptTime now lastReq
  match outcome 0 with
  | .ok els => (els, [t0])
  | .otherHttpError => ([], [t0])
  | _ =>
    let t1 := remoteAttemptTime (t0 + (base * 2 ^ 0 + jitter 0)) t0
    match outcome 1 with
    | .ok els => (els, [t0, t1])
    | .otherHttpError => ([], [t0, t1])
    | _ =>
      let t2 := remoteAttemptTime (t1 + (base * 2 ^ 1 + jitter 1)) t1
      match outcome 2 with
      | .ok els => (els, [t0, t1, t2])
      | .otherHttpError => ([], [t0, t1, t2])
      | _ => ([], [t0, t1, t2])

/-- Spec reading of geometry extraction, way case: with at least one boundary
point the ring is the point sequence (as `(lon, lat)` pairs) closed by
appending the first point when first and last differ, and the centroid is the
arithmetic mean of the input points pre-closure; with an empty sequence the
computation raises (division by zero in the mean). -/
def specWayResult (pts : List Pt) : Option ExtractResult :=
  match pts with
  | [] => none
  | p :: ps =>
    let input := p :: ps
    let ring0 := input.map fun q => (q.lon, q.lat)
    let ring := if ring0.getLast? ≠ ring0.head? then ring0 ++ [(p.lon, p.lat)] else ring0
    some (some (Geom.polygon ring),
          some ((input.map Pt.lat).sum / (input.length : ℚ)),
          some ((input.map Pt.lon).sum / (input.length : ℚ)))

/-- Spec reading of geometry extraction, node case: a Point at the node's own
coordinates when both are present and nonzero; otherwise no geometry, with
the raw coordinate fields passed through as the centroid. -/
def specNodeResult (la lo : Option ℚ) : Option ExtractResult :=
  match la, lo with
  | some a, some o =>
    if a ≠ 0 ∧ o ≠ 0 then some (some (Geom.point o a), some a, some o)
    else some (none, some a, some o)
  | _, _ => some (none, la, lo)

/-- Center of the bounding-box rectangle, as `(lat, lng)`. -/
def rectCenter (b : Bounds) : ℚ × ℚ :=
  ((b.minlat + b.maxlat) / 2, (b.minlon + b.maxlon) / 2)

/-- Geometry extraction as the (amended) spec words it, with the five cases
in priority order: way with a boundary-point sequence (raising on an empty
one), relation with a bounding box, node, pre-computed center, nothing. -/
def specExtractGeometry (el : Element) : Option ExtractResult :=
  match el.typ, el.geometry, el.bounds, el.center with
  | .way, some pts, _, _ => specWayResult pts
  | .relation, _, some b, _ =>
    some (some (Geom.point (rectCenter b).2 (rectCenter b).1),
          some (rectCenter b).1, some (rectCenter b).2)
  | .node, _, _, _ => specNodeResult el.lat el.lon
  | _, _, _, some c => some (some (Geom.point c.lon c.lat), some c.lat, some c.lon)
  | _, _, _, none => some (none, none, none)

/-- A raw `way` element with an empty `geometry` array — the input on which
`_extract_geometry` divides by zero. -/
def wayNoPoints : Element := { typ := .way, geometry := some [] }

/-- Sample persisted listing (for the witnesses). -/
def sampleListing : Listing :=
  { mls_id := "R100"
    url := "https://example.invalid/r100"
    address := "1 Main St"
    city := "Vancouver"
    price := 500000
    first_seen := 0
    last_seen := some 0
    status := .active }

/-- Sample delisted persisted listing (for the witnesses). -/
def sampleDelisted : Listing :=
  { sampleListing with status := .delisted }

/-- Sample scraped record carrying the same `mls_id` as `sampleListing` but
different field values (for the witnesses). -/
def sampleScraped : ScrapedListing :=
  { mls_id := "R100"
    url := "https://example.invalid/r100b"
    address := "2 Other St"
    city := "Burnaby"
    latitude := 49
    longitude := -123
    price := 600000
    bedrooms := some 3
    raw_data := [("k", "v")] }

/-- Sample scraped record with a fresh `mls_id` (for the witnesses). -/
def sampleScrapedNew : ScrapedListing :=
  { sampleScraped with mls_id := "R200" }

/-- Sample POI feature dicts (for the witnesses). -/
def samplePoiInputA : PoiInput :=
  { osm_id := 11, typ := "park", name := some "Stanley Park",
    geometry := Geom.point 1 2, distance_m := 100 }

/-- Second sample POI feature dict, distinct `osm_id` (for the witnesses). -/
def samplePoiInputB : PoiInput :=
  { osm_id := 22, typ := "coffee_shop", name := none,
    geometry := Geom.point 3 4, distance_m := 200 }

/-- A node element sitting on the equator (for the witnesses). -/
def equatorNode : Element :=
  { typ := .node, lat := some 0, lon := some 50, id := some 5 }

set_option maxHeartbeats 800000 in
/-- C1: `calculate_walkability_score` computes, for every `AmenityData`
summary, exactly the spec's tiered additive formula — nearest-park tier, +2
per listed park within 1000 m capped at +10, nearest-coffee tier, +2 per
listed coffee shop within 500 m capped at +10, nearest-dog-park tier, and the
mutually exclusive combination bonus — with the running total capped at 100;
an empty summary scores exactly 0 and every summary scores at most 100. -/
theorem C1_walkability_score :
    (∀ d : AmenityData, calculate_walkability_score d = specWalkabilityScore d)
    ∧ calculate_walkability_score emptyAmenityData = 0
    ∧ ∀ d : AmenityData, calculate_walkability_score d ≤ 100 := by
  refine ⟨fun d => ?_, by decide, fun d => ?_⟩
  · obtain ⟨np, nc, nd, ps, cs, ds, w, a⟩ := d
    cases np <;> cases nc <;> cases nd <;>
      simp only [calculate_walkability_score, specWalkabilityScore, specParkTier,
        specCoffeeTier, specDogParkTier, specPerFeatureBonus, specComboBonus, zero_add]
  · simp only [calculate_walkability_score]
    exact min_le_right _ _

/-- The delisting guard, characterized as a proposition. -/
lemma delistCond_iff (seen : List String) (now : ℚ) (l : Listing) :
    delistCond seen now l = true ↔
      (l.status = .active ∧ l.mls_id ∉ seen ∧
        ∃ t, l.last_seen = some t ∧ (now - t) / 3600 > 48) := by
  unfold delistCond
  cases hls : l.last_seen <;>
    simp [hls, List.elem_iff, List.contains, and_assoc]

/-- C2: `mark_delisted` transitions a listing to `delisted` iff it is
currently active, its `mls_id` is absent from the seen set, and strictly more
than 48 hours have elapsed since its `last_seen`; a listing in the seen set
is untouched regardless of age, and a listing last seen 48 hours ago or less
is untouched as well. -/
theorem C2_mark_delisted (seen : List String) (now : ℚ) (l : Listing) :
    (((markDelistedOne seen now l).status = .delisted ∧ l.status = .active) ↔
      (l.status = .active ∧ l.mls_id ∉ seen ∧
        ∃ t, l.last_seen = some t ∧ (now - t) / 3600 > 48))
    ∧ (l.mls_id ∈ seen → markDelistedOne seen now l = l)
    ∧ (∀ t, l.last_seen = some t → (now - t) / 3600 ≤ 48 →
        markDelistedOne seen now l = l)
    ∧ ∀ db : List Listing, mark_delisted seen now db = db.map (markDelistedOne seen now) := by
  refine ⟨?_, ?_, ?_, fun db => rfl⟩
  · unfold markDelistedOne
    by_cases h : delistCond seen now l = true
    · rw [if_pos h]
      rw [delistCond_iff] at h
      exact ⟨fun _ => h, fun _ => ⟨rfl, h.1⟩⟩
    · rw [if_neg h]
      constructor
      · rintro ⟨hd, ha⟩
        rw [ha] at hd
        exact absurd hd (by simp)
      · intro hr
        exact absurd ((delistCond_iff seen now l).mpr hr) h
  · intro hmem
    unfold markDelistedOne
    have hc : delistCond seen now l = false := by
      unfold delistCond
      have hct : seen.contains l.mls_id = true := by
        simpa [List.contains, List.elem_iff] using hmem
      simp only [hct, Bool.not_true, Bool.and_false, Bool.false_and]
    simp [hc]
  · intro t ht hle
    unfold markDelistedOne
    have hc : delistCond seen now l = false := by
      unfold delistCond
      simp [ht, not_lt.mpr hle]
    simp [hc]

/-- C2 witness: a listing last seen 49 hours ago and absent from the seen set
is delisted; one last seen 24 hours ago stays active; one in the seen set is
untouched. -/
theorem C2_mark_delisted_witness :
    ((markDelistedOne [] (49 * 3600) sampleListing).status = .delisted
      ∧ sampleListing.status = .active)
    ∧ markDelistedOne ["R100"] (49 * 3600) sampleListing = sampleListing
    ∧ markDelistedOne [] (24 * 3600) sampleListing = sampleListing := by
  refine ⟨?_, ?_, ?_⟩
  · exact (C2_mark_delisted [] (49 * 3600) sampleListing).1.mpr
      ⟨rfl, by simp, 0, rfl, by norm_num⟩
  · exact (C2_mark_delisted ["R100"] (49 * 3600) sampleListing).2.1 (by simp [sampleListing])
  · exact (C2_mark_delisted [] (24 * 3600) sampleListing).2.2.1 0 rfl (by norm_num)

/-- `replaceFirst` never changes the number of rows. -/
lemma replaceFirst_length (p : Listing → Bool) (f : Listing → Listing) (xs : List Listing) :
    (replaceFirst p f xs).length = xs.length := by
  induction xs with
  | nil => rfl
  | cons x xs ih =>
    unfold replaceFirst
    split <;> simp [ih]

/-- `replaceFirst` with an update that preserves a predicate also preserves
the number of rows satisfying it. -/
lemma filter_replaceFirst_length (p q : Listing → Bool) (f : Listing → Listing)
    (hf : ∀ x, q (f x) = q x) (xs : List Listing) :
    ((replaceFirst p f xs).filter q).length = (xs.filter q).length := by
  induction xs with
  | nil => rfl
  | cons x xs ih =>
    unfold replaceFirst
    by_cases hp : p x
    · rw [if_pos hp]
      rw [List.filter_cons, List.filter_cons, hf x]
      split <;> simp
    · rw [if_neg hp]
      rw [List.filter_cons, List.filter_cons]
      split <;> simp [ih]

/-- C3: `upsert_listing` on a fresh `mls_id` appends one new row with
`status = active`, `first_seen = last_seen = now` and every field copied from
the scraped record, returning `isNew = true`; on an existing `mls_id` it
returns `isNew = false`, overwrites price / `last_seen` / raw payload on that
row, reactivates it when delisted, and creates no duplicate. -/
theorem C3_upsert_listing (db : List Listing) (s : ScrapedListing) (now : ℚ) :
    ((db.find? fun l => l.mls_id == s.mls_id) = none →
      (upsert_listing db s now).2.2 = true
      ∧ (upsert_listing db s now).1 = db ++ [(upsert_listing db s now).2.1]
      ∧ (upsert_listing db s now).2.1 = newListing s now
      ∧ (newListing s now).status = .active
      ∧ (newListing s now).first_seen = now
      ∧ (newListing s now).last_seen = some now
      ∧ (newListing s now).mls_id = s.mls_id
      ∧ (newListing s now).url = s.url
      ∧ (newListing s now).address = s.address
      ∧ (newListing s now).city = s.city
      ∧ (newListing s now).location = some (s.longitude, s.latitude)
      ∧ (newListing s now).price = s.price
      ∧ (newListing s now).bedrooms = s.bedrooms
      ∧ (newListing s now).bathrooms = s.bathrooms
      ∧ (newListing s now).sqft = s.sqft
      ∧ (newListing s now).property_type = s.property_type
      ∧ (newListing s now).listing_date = s.listing_date
      ∧ (newListing s now).raw_data = some s.raw_data)
    ∧ ∀ l, (db.find? fun l2 => l2.mls_id == s.mls_id) = some l →
      (upsert_listing db s now).2.2 = false
      ∧ (upsert_listing db s now).2.1.price = s.price
      ∧ (upsert_listing db s now).2.1.last_seen = some now
      ∧ (upsert_listing db s now).2.1.raw_data = some s.raw_data
      ∧ (l.status = .delisted → (upsert_listing db s now).2.1.status = .active)
      ∧ (l.status = .active → (upsert_listing db s now).2.1.status = .active)
      ∧ (upsert_listing db s now).1.length = db.length
      ∧ ((upsert_listing db s now).1.filter fun l2 => l2.mls_id == s.mls_id).length
          = (db.filter fun l2 => l2.mls_id == s.mls_id).length := by
  constructor
  · intro h
    unfold upsert_listing
    rw [h]
    exact ⟨rfl, rfl, rfl, rfl, rfl, rfl, rfl, rfl, rfl, rfl, rfl, rfl, rfl, rfl,
      rfl, rfl, rfl, rfl⟩
  · intro l h
    unfold upsert_listing
    rw [h]
    refine ⟨rfl, rfl, rfl, rfl, ?_, ?_, ?_, ?_⟩
    · intro hst
      simp [updateExisting, hst]
    · intro hst
      simp [updateExisting, hst]
    · exact replaceFirst_length _ _ db
    · exact filter_replaceFirst_length (fun l2 => l2.mls_id == s.mls_id)
        (fun l2 => l2.mls_id == s.mls_id) (fun l2 => updateExisting l2 s now)
        (fun x => rfl) db

/-- C3 witness: a fresh `mls_id` is created active with `isNew = true`; the
same `mls_id` scraped again with a new price yields `isNew = false`, the new
price, no second row, and a delisted row is reactivated. -/
theorem C3_upsert_listing_witness :
    (upsert_listing [] sampleScrapedNew 100).2.2 = true
    ∧ (upsert_listing [] sampleScrapedNew 100).2.1.status = .active
    ∧ (upsert_listing [sampleListing] sampleScraped 100).2.2 = false
    ∧ (upsert_listing [sampleListing] sampleScraped 100).2.1.price = 600000
    ∧ (upsert_listing [sampleListing] sampleScraped 100).1.length = 1
    ∧ (upsert_listing [sampleDelisted] sampleScraped 100).2.1.status = .active := by
  obtain ⟨hnew, hsome⟩ := C3_upsert_listing [] sampleScrapedNew 100
  obtain ⟨hn1, hs1⟩ := C3_upsert_listing [sampleListing] sampleScraped 100
  obtain ⟨hn2, hs2⟩ := C3_upsert_listing [sampleDelisted] sampleScraped 100
  obtain ⟨w1, -, w3, -⟩ := hnew rfl
  obtain ⟨u1, -, -, -, -, -, u7, -⟩ := hs1 sampleListing rfl
  obtain ⟨-, v2, -, -, v5, -⟩ := hs2 sampleDelisted rfl
  refine ⟨w1, by rw [w3] ; rfl, u1, ?_, u7, v5 rfl⟩
  have := (hs1 sampleListing rfl).2.1
  simpa [sampleScraped] using this

/-- C8: re-upserting an existing `mls_id` leaves every persisted field other
than price, `last_seen`, raw payload and status unchanged: `first_seen`,
address, city, location geometry, url, bedrooms, bathrooms, sqft,
property type and listing date keep their prior values. -/
theorem C8_upsert_frame (db : List Listing) (s : ScrapedListing) (now : ℚ) (l : Listing)
    (h : (db.find? fun l2 => l2.mls_id == s.mls_id) = some l) :
    (upsert_listing db s now).2.1.first_seen = l.first_seen
    ∧ (upsert_listing db s now).2.1.address = l.address
    ∧ (upsert_listing db s now).2.1.city = l.city
    ∧ (upsert_listing db s now).2.1.location = l.location
    ∧ (upsert_listing db s now).2.1.url = l.url
    ∧ (upsert_listing db s now).2.1.bedrooms = l.bedrooms
    ∧ (upsert_listing db s now).2.1.bathrooms = l.bathrooms
    ∧ (upsert_listing db s now).2.1.sqft = l.sqft
    ∧ (upsert_listing db s now).2.1.property_type = l.property_type
    ∧ (upsert_listing db s now).2.1.listing_date = l.listing_date
    ∧ (upsert_listing db s now).2.1.mls_id = l.mls_id := by
  unfold upsert_listing
  rw [h]
  exact ⟨rfl, rfl, rfl, rfl, rfl, rfl, rfl, rfl, rfl, rfl, rfl⟩

/-- C8 witness: re-upserting `sampleListing`'s `mls_id` with a scraped record
that carries a different address and city keeps the persisted address, city
and `first_seen`. -/
theorem C8_upsert_frame_witness :
    (upsert_listing [sampleListing] sampleScraped 100).2.1.first_seen = 0
    ∧ (upsert_listing [sampleListing] sampleScraped 100).2.1.address = "1 Main St"
    ∧ (upsert_listing [sampleListing] sampleScraped 100).2.1.city = "Vancouver"
    ∧ sampleScraped.address = "2 Other St" := by
  obtain ⟨h1, h2, h3, -⟩ := C8_upsert_frame [sampleListing] sampleScraped 100 sampleListing rfl
  exact ⟨h1, h2, h3, rfl⟩

/-- The code's geometry extraction agrees with the spec-side formulation on
every element. -/
lemma extract_eq_specExtract (el : Element) :
    extractGeometry el = specExtractGeometry el := by
  obtain ⟨ty, geo, bds, la, lo, ctr, i, nt, lt⟩ := el
  cases ty with
  | way =>
    rcases geo with _ | pts
    · cases bds <;> cases ctr <;>
        simp [extractGeometry, specExtractGeometry]
    · rcases pts with _ | ⟨p, ps⟩
      · simp [extractGeometry, specExtractGeometry, specWayResult]
      · simp only [extractGeometry, specExtractGeometry, specWayResult, List.isEmpty_cons,
          Bool.false_eq_true, if_false, closeRing, List.map_cons, ratMean, List.length_map,
          List.length_cons, List.head?_cons, ne_eq, ite_not]
  | relation =>
    rcases geo with _ | pts <;> cases bds <;> cases ctr <;>
      simp [extractGeometry, specExtractGeometry, rectCenter]
  | node =>
    rcases geo with _ | pts <;> cases bds <;> cases ctr <;>
      rcases la with _ | a <;> rcases lo with _ | o <;>
        simp [extractGeometry, specExtractGeometry, specNodeResult, truthyQ]
  | other =>
    rcases geo with _ | pts <;> cases bds <;> cases ctr <;>
      simp [extractGeometry, specExtractGeometry]

/-- The spec-side extraction raises exactly on a way with an empty
boundary-point sequence. -/
lemma specExtract_none_iff (el : Element) :
    specExtractGeometry el = none ↔ (el.typ = .way ∧ el.geometry = some []) := by
  obtain ⟨ty, geo, bds, la, lo, ctr, i, nt, lt⟩ := el
  cases ty <;> rcases geo with _ | ⟨_ | ⟨p, ps⟩⟩ <;> rcases bds with _ | b <;>
    rcases ctr with _ | c <;>
      simp [specExtractGeometry, specWayResult, specNodeResult] <;>
      rcases la with _ | a <;> rcases lo with _ | o <;>
        simp [specNodeResult] <;>
        by_cases ha : a = 0 <;> by_cases ho : o = 0 <;> simp [ha, ho]

/-- C4 (amended): `_extract_geometry` equals the spec's priority-ordered
extraction with two corrections forced by the code — the Polygon branch
applies only to `way`-typed elements and raises (ZeroDivisionError) on an
empty boundary-point sequence, and the node branch tests the coordinates for
truthiness (zero coordinates yield a null geometry) and never falls through
to the `center` branch; on every other input it never raises. -/
theorem C4_extract_geometry_amended (el : Element) :
    extractGeometry el = specExtractGeometry el
    ∧ (extractGeometry el = none ↔ (el.typ = .way ∧ el.geometry = some [])) := by
  refine ⟨extract_eq_specExtract el, ?_⟩
  rw [extract_eq_specExtract el]
  exact specExtract_none_iff el

/-- C4 counterexample: on a `way` element with an empty boundary-point
sequence, `_extract_geometry` raises (ZeroDivisionError in the centroid mean)
instead of returning the `(null, null, null)` triple the claimed priority
order prescribes — it is not a total never-raising function. -/
theorem C4_extract_geometry_counterexample :
    extractGeometry wayNoPoints = none
    ∧ extractGeometry wayNoPoints ≠ some (none, none, none) := by
  exact ⟨rfl, by decide⟩

/-- Truthiness of an optional rational, as a proposition. -/
lemma truthyQ_iff (x : Option ℚ) : truthyQ x = true ↔ ∃ a, x = some a ∧ a ≠ 0 := by
  cases x <;> simp [truthyQ]

/-- Everything kept by the accumulation loop satisfies any property the
per-element builder guarantees. -/
lemma collectFeatures_mem (mk : Element → Option (Option PoiDict)) (P : PoiDict → Prop)
    (hmk : ∀ el f, mk el = some (some f) → P f) :
    ∀ els fs, collectFeatures mk els = some fs → ∀ f ∈ fs, P f := by
  intro els
  induction els with
  | nil =>
    intro fs h f hf
    unfold collectFeatures at h
    injection h with h
    rw [← h] at hf
    exact absurd hf (List.not_mem_nil f)
  | cons el rest ih =>
    intro fs h f hf
    unfold collectFeatures at h
    cases hm : mk el with
    | none => rw [hm] at h; exact absurd h (by simp)
    | some kept =>
      rw [hm] at h
      cases hr : collectFeatures mk rest with
      | none => rw [hr] at h; exact absurd h (by simp)
      | some gs =>
        rw [hr] at h
        cases kept with
        | none =>
          injection h with h
          rw [← h] at hf
          exact ih gs hr f hf
        | some g =>
          injection h with h
          rw [← h] at hf
          rcases List.mem_cons.mp hf with hfg | hfs
          · exact hfg ▸ hmk el g hm
          · exact ih gs hr f hfs

/-- Membership transfer through a successful category fetch. -/
lemma fetchCategory_mem (mk : Element → Option (Option PoiDict)) (P : PoiDict → Prop)
    (hmk : ∀ el f, mk el = some (some f) → P f) (resp : QueryResp) (fs : List PoiDict)
    (h : fetchCategory mk resp = .ok fs) : ∀ f ∈ fs, P f := by
  unfold fetchCategory at h
  cases hq : queryOverpass resp with
  | error e => rw [hq] at h; exact absurd h (by simp)
  | ok els =>
    rw [hq] at h
    dsimp only at h
    cases hc : collectFeatures mk els with
    | none => rw [hc] at h; exact absurd h (by simp)
    | some xs =>
      rw [hc] at h
      injection h with h
      intro f hf
      rw [← h] at hf
      exact collectFeatures_mem mk P hmk els xs hc f
        ((List.mergeSort_perm xs distLE).mem_iff.mp hf)

/-- A successful category fetch is sorted ascending by `distance_m`. -/
lemma fetchCategory_sorted (mk : Element → Option (Option PoiDict)) (resp : QueryResp)
    (fs : List PoiDict) (h : fetchCategory mk resp = .ok fs) :
    fs.Pairwise fun a b => a.distance_m.getD 0 ≤ b.distance_m.getD 0 := by
  unfold fetchCategory at h
  cases hq : queryOverpass resp with
  | error e => rw [hq] at h; exact absurd h (by simp)
  | ok els =>
    rw [hq] at h
    dsimp only at h
    cases hc : collectFeatures mk els with
    | none => rw [hc] at h; exact absurd h (by simp)
    | some xs =>
      rw [hc] at h
      injection h with h
      rw [← h]
      have hs : List.Pairwise (fun a b => distLE a b = true) (xs.mergeSort distLE) :=
        List.sorted_mergeSort
          (fun a b c h1 h2 => by
            simp only [distLE, decide_eq_true_eq] at h1 h2 ⊢
            exact le_trans h1 h2)
          (fun a b => by
            simp only [distLE, Bool.or_eq_true, decide_eq_true_eq]
            exact le_total _ _)
          xs
      exact hs.imp fun hab => by simpa [distLE] using hab

/-- The park builder only emits dicts with a present, nonzero centroid and a
present distance. -/
lemma parkOfElement_props (dist : DistFn) (lat lng : ℚ) (el : Element) (f : PoiDict)
    (h : parkOfElement dist lat lng el = some (some f)) :
    (∃ a, f.centroid_lat = some a ∧ a ≠ 0) ∧ (∃ b, f.centroid_lng = some b ∧ b ≠ 0)
      ∧ f.distance_m.isSome = true := by
  unfold parkOfElement at h
  cases hg : extractGeometry el with
  | none => rw [hg] at h; exact absurd h (by simp)
  | some res =>
    obtain ⟨g, clat, clng⟩ := res
    rw [hg] at h
    dsimp only at h
    by_cases hc : (truthyQ clat && truthyQ clng && truthyZ el.id && g.isSome) = true
    · rw [if_pos hc] at h
      simp only [Bool.and_eq_true] at hc
      obtain ⟨⟨⟨h1, h2⟩, -⟩, -⟩ := hc
      injection h with h
      injection h with h
      rw [← h]
      exact ⟨truthyQ_iff clat |>.mp h1, truthyQ_iff clng |>.mp h2, rfl⟩
    · rw [if_neg hc] at h
      exact absurd h (by simp)

/-- The coffee-shop builder only emits dicts with a present, nonzero centroid
and a present distance. -/
lemma cafeOfElement_props (dist : DistFn) (lat lng : ℚ) (el : Element) (f : PoiDict)
    (h : cafeOfElement dist lat lng el = some (some f)) :
    (∃ a, f.centroid_lat = some a ∧ a ≠ 0) ∧ (∃ b, f.centroid_lng = some b ∧ b ≠ 0)
      ∧ f.distance_m.isSome = true := by
  unfold cafeOfElement at h
  cases hg : extractGeometry el with
  | none => rw [hg] at h; exact absurd h (by simp)
  | some res =>
    obtain ⟨g, clat, clng⟩ := res
    rw [hg] at h
    dsimp only at h
    by_cases hc : (truthyQ clat && truthyQ clng && truthyZ el.id && g.isSome) = true
    · rw [if_pos hc] at h
      simp only [Bool.and_eq_true] at hc
      obtain ⟨⟨⟨h1, h2⟩, -⟩, -⟩ := hc
      injection h with h
      injection h with h
      rw [← h]
      exact ⟨truthyQ_iff clat |>.mp h1, truthyQ_iff clng |>.mp h2, rfl⟩
    · rw [if_neg hc] at h
      exact absurd h (by simp)

/-- The dog-park builder only emits dicts with a present, nonzero centroid
and a present distance. -/
lemma dogParkOfElement_props (dist : DistFn) (lat lng : ℚ) (el : Element) (f : PoiDict)
    (h : dogParkOfElement dist lat lng el = some (some f)) :
    (∃ a, f.centroid_lat = some a ∧ a ≠ 0) ∧ (∃ b, f.centroid_lng = some b ∧ b ≠ 0)
      ∧ f.distance_m.isSome = true := by
  unfold dogParkOfElement at h
  cases hg : extractGeometry el with
  | none => rw [hg] at h; exact absurd h (by simp)
  | some res =>
    obtain ⟨g, clat, clng⟩ := res
    rw [hg] at h
    dsimp only at h
    by_cases hc : (truthyQ clat && truthyQ clng && truthyZ el.id && g.isSome) = true
    · rw [if_pos hc] at h
      simp only [Bool.and_eq_true] at hc
      obtain ⟨⟨⟨h1, h2⟩, -⟩, -⟩ := hc
      injection h with h
      injection h with h
      rw [← h]
      exact ⟨truthyQ_iff clat |>.mp h1, truthyQ_iff clng |>.mp h2, rfl⟩
    · rw [if_neg hc] at h
      exact absurd h (by simp)

/-- C10: a node element sitting on the equator or prime meridian loses its
geometry — the presence check is a truthiness test — and every category fetch
excludes any feature whose computed centroid latitude or longitude equals 0
from its results. -/
theorem C10_zero_coordinate_dropped :
    (∀ el : Element, el.typ = .node → (el.lat = some 0 ∨ el.lon = some 0) →
      extractGeometry el = some (none, el.lat, el.lon))
    ∧ (∀ (dist : DistFn) (lat lng : ℚ) (resp : QueryResp) (fs : List PoiDict),
        get_nearby_parks dist lat lng resp = .ok fs →
        ∀ f ∈ fs, (∃ a, f.centroid_lat = some a ∧ a ≠ 0)
          ∧ ∃ b, f.centroid_lng = some b ∧ b ≠ 0)
    ∧ (∀ (dist : DistFn) (lat lng : ℚ) (resp : QueryResp) (fs : List PoiDict),
        get_nearby_coffee_shops dist lat lng resp = .ok fs →
        ∀ f ∈ fs, (∃ a, f.centroid_lat = some a ∧ a ≠ 0)
          ∧ ∃ b, f.centroid_lng = some b ∧ b ≠ 0)
    ∧ (∀ (dist : DistFn) (lat lng : ℚ) (resp : QueryResp) (fs : List PoiDict),
        get_nearby_dog_parks dist lat lng resp = .ok fs →
        ∀ f ∈ fs, (∃ a, f.centroid_lat = some a ∧ a ≠ 0)
          ∧ ∃ b, f.centroid_lng = some b ∧ b ≠ 0) := by
  refine ⟨?_, ?_, ?_, ?_⟩
  · intro el hnode hzero
    obtain ⟨ty, geo, bds, la, lo, ctr, i, nt, lt⟩ := el
    subst hnode
    rcases geo with _ | pts <;> cases bds <;> cases ctr <;>
      rcases hzero with hz | hz <;> simp_all [extractGeometry, truthyQ]
  · intro dist lat lng resp fs h
    exact fetchCategory_mem _ _
      (fun el f hel => by
        obtain ⟨h1, h2, -⟩ := parkOfElement_props dist lat lng el f hel
        exact ⟨h1, h2⟩) resp fs h
  · intro dist lat lng resp fs h
    exact fetchCategory_mem _ _
      (fun el f hel => by
        obtain ⟨h1, h2, -⟩ := cafeOfElement_props dist lat lng el f hel
        exact ⟨h1, h2⟩) resp fs h
  · intro dist lat lng resp fs h
    exact fetchCategory_mem _ _
      (fun el f hel => by
        obtain ⟨h1, h2, -⟩ := dogParkOfElement_props dist lat lng el f hel
        exact ⟨h1, h2⟩) resp fs h

/-- C10 witness: the equator node (lat 0) yields a null geometry, and a park
fetch over a response containing only that node returns the empty list. -/
theorem C10_zero_coordinate_dropped_witness :
    equatorNode.typ = .node ∧ equatorNode.lat = some 0
    ∧ extractGeometry equatorNode = some (none, some 0, some 50)
    ∧ get_nearby_parks (fun _ _ _ _ => 0) 49 (-123)
        (.objectJson (some [equatorNode])) = .ok []
    ∧ (∀ f ∈ ([] : List PoiDict), (∃ a, f.centroid_lat = some a ∧ a ≠ 0)
        ∧ ∃ b, f.centroid_lng = some b ∧ b ≠ 0) := by
  have h1 := (C10_zero_coordinate_dropped).1 equatorNode rfl (Or.inl rfl)
  have h4 : get_nearby_parks (fun _ _ _ _ => (0 : ℤ)) 49 (-123)
      (.objectJson (some [equatorNode])) = .ok [] := by
    simp [get_nearby_parks, fetchCategory, queryOverpass, collectFeatures, parkOfElement,
      extractGeometry, equatorNode, truthyQ, sortByDistance]
  exact ⟨rfl, rfl, h1, h4,
    (C10_zero_coordinate_dropped).2.1 (fun _ _ _ _ => 0) 49 (-123)
      (.objectJson (some [equatorNode])) [] h4⟩

/-- The scorer never reads the two score fields. -/
lemma calc_score_fields (d : AmenityData) (s1 s2 : ℤ) :
    calculate_walkability_score { d with walkability_score := s1, amenity_score := s2 }
      = calculate_walkability_score d := by
  cases d
  rfl

/-- C7: every successful `enrich` result has each category list sorted
ascending by `distance_m` (each entry carrying the key), truncated to
10/10/5, each nearest-distance field equal to the distance of the first
element of its sorted list (or null when empty), `walkability_score` equal to
`calculate_walkability_score` of the assembled summary, and `amenity_score`
equal to `walkability_score`. -/
theorem C7_enrich_assembly (dist : DistFn) (lat lng : ℚ) (rp rc rd : QueryResp)
    (d : AmenityData) (h : enrich dist lat lng rp rc rd = .ok d) :
    d.parks.Pairwise (fun a b => a.distance_m.getD 0 ≤ b.distance_m.getD 0)
    ∧ d.coffee_shops.Pairwise (fun a b => a.distance_m.getD 0 ≤ b.distance_m.getD 0)
    ∧ d.dog_parks.Pairwise (fun a b => a.distance_m.getD 0 ≤ b.distance_m.getD 0)
    ∧ (∀ f ∈ d.parks, f.distance_m.isSome = true)
    ∧ (∀ f ∈ d.coffee_shops, f.distance_m.isSome = true)
    ∧ (∀ f ∈ d.dog_parks, f.distance_m.isSome = true)
    ∧ d.parks.length ≤ 10 ∧ d.coffee_shops.length ≤ 10 ∧ d.dog_parks.length ≤ 5
    ∧ d.nearest_park_m = d.parks.head?.bind PoiDict.distance_m
    ∧ d.nearest_coffee_m = d.coffee_shops.head?.bind PoiDict.distance_m
    ∧ d.nearest_dog_park_m = d.dog_parks.head?.bind PoiDict.distance_m
    ∧ d.walkability_score = calculate_walkability_score d
    ∧ d.amenity_score = d.walkability_score := by
  unfold enrich at h
  unfold get_nearby_parks get_nearby_coffee_shops get_nearby_dog_parks at h
  cases hp : fetchCategory (parkOfElement dist lat lng) rp with
  | error e => rw [hp] at h; exact absurd h (by simp)
  | ok parks =>
    rw [hp] at h
    dsimp only at h
    cases hc : fetchCategory (cafeOfElement dist lat lng) rc with
    | error e => rw [hc] at h; exact absurd h (by simp)
    | ok cafes =>
      rw [hc] at h
      dsimp only at h
      cases hd : fetchCategory (dogParkOfElement dist lat lng) rd with
      | error e => rw [hd] at h; exact absurd h (by simp)
      | ok dogs =>
        rw [hd] at h
        dsimp only at h
        injection h with h
        subst h
        have sp := fetchCategory_sorted _ rp parks hp
        have sc := fetchCategory_sorted _ rc cafes hc
        have sd := fetchCategory_sorted _ rd dogs hd
        have mp := fetchCategory_mem _ (fun f => f.distance_m.isSome = true)
          (fun el f hel => (parkOfElement_props dist lat lng el f hel).2.2) rp parks hp
        have mc := fetchCategory_mem _ (fun f => f.distance_m.isSome = true)
          (fun el f hel => (cafeOfElement_props dist lat lng el f hel).2.2) rc cafes hc
        have md := fetchCategory_mem _ (fun f => f.distance_m.isSome = true)
          (fun el f hel => (dogParkOfElement_props dist lat lng el f hel).2.2) rd dogs hd
        refine ⟨List.Pairwise.sublist (List.take_sublist 10 parks) sp,
          List.Pairwise.sublist (List.take_sublist 10 cafes) sc,
          List.Pairwise.sublist (List.take_sublist 5 dogs) sd,
          fun f hf => mp f (List.mem_of_mem_take hf),
          fun f hf => mc f (List.mem_of_mem_take hf),
          fun f hf => md f (List.mem_of_mem_take hf),
          List.length_take_le 10 parks,
          List.length_take_le 10 cafes,
          List.length_take_le 5 dogs,
          ?_, ?_, ?_, ?_, rfl⟩
        · simp [List.head?_take]
        · simp [List.head?_take]
        · simp [List.head?_take]
        · exact (calc_score_fields _ _ _).symm

/-- Helper evaluation: with every category query failing with an
`httpx.HTTPError`, `enrich` returns the empty amenity summary. -/
lemma enrich_httpError_eval (dist : DistFn) (lat lng : ℚ) :
    enrich dist lat lng .httpError .httpError .httpError = .ok emptyAmenityData := by
  simp [enrich, get_nearby_parks, get_nearby_coffee_shops, get_nearby_dog_parks,
    fetchCategory, queryOverpass, collectFeatures, sortByDistance, List.mergeSort_nil,
    emptyAmenityData, calculate_walkability_score]

/-- C7 witness: a concrete run of `enrich` (all three category queries fail)
returns the empty summary, whose score fields satisfy the assembly
contract. -/
theorem C7_enrich_assembly_witness :
    enrich (fun _ _ _ _ => 0) 49 (-123) .httpError .httpError .httpError
        = .ok emptyAmenityData
    ∧ emptyAmenityData.walkability_score = calculate_walkability_score emptyAmenityData
    ∧ emptyAmenityData.amenity_score = emptyAmenityData.walkability_score := by
  have he := enrich_httpError_eval (fun _ _ _ _ => 0) 49 (-123)
  have hall := C7_enrich_assembly (fun _ _ _ _ => 0) 49 (-123) .httpError .httpError
    .httpError emptyAmenityData he
  exact ⟨he, hall.2.2.2.2.2.2.2.2.2.2.2.2.1, hall.2.2.2.2.2.2.2.2.2.2.2.2.2⟩

/-- C6 counterexample: on a 2xx response whose body is not parseable JSON,
`_query_overpass` raises `json.JSONDecodeError` — the `except` clause catches
only `httpx.HTTPError` — so an exception does propagate to the caller, and
the function does not return a list. -/
theorem C6_query_overpass_counterexample :
    queryOverpass .badJson = .error .jsonDecodeError := rfl

/-- C6 (amended): for an HTTP error status, a timeout, or a transport failure
(all `httpx.HTTPError`), `_query_overpass` returns the empty list and never
propagates an exception, and a category failing that way yields an empty list
in the summary while scoring proceeds; but a response body that is not
parseable JSON (or parses to a non-object) raises, and that exception
propagates out of `enrich`. -/
theorem C6_query_overpass_amended :
    queryOverpass .httpError = .ok []
    ∧ (∀ r : QueryResp,
        (∃ e, queryOverpass r = .error e) ↔ (r = .badJson ∨ r = .nonObjectJson))
    ∧ (∀ (dist : DistFn) (lat lng : ℚ) (rc rd : QueryResp) (d : AmenityData),
        enrich dist lat lng .httpError rc rd = .ok d →
        d.parks = [] ∧ d.nearest_park_m = none
          ∧ d.walkability_score = calculate_walkability_score d)
    ∧ (∀ (dist : DistFn) (lat lng : ℚ),
        enrich dist lat lng .httpError .httpError .httpError = .ok emptyAmenityData)
    ∧ ∀ (dist : DistFn) (lat lng : ℚ) (rc rd : QueryResp),
        enrich dist lat lng .badJson rc rd = .error .jsonDecodeError := by
  have hempty : ∀ (dist : DistFn) (lat lng : ℚ),
      fetchCategory (parkOfElement dist lat lng) .httpError = .ok [] := by
    intro dist lat lng
    simp [fetchCategory, queryOverpass, collectFeatures, sortByDistance, List.mergeSort_nil]
  refine ⟨rfl, ?_, ?_, enrich_httpError_eval, ?_⟩
  · intro r
    cases r with
    | objectJson els => cases els <;> simp [queryOverpass]
    | _ => simp [queryOverpass]
  · intro dist lat lng rc rd d h
    unfold enrich at h
    unfold get_nearby_parks get_nearby_coffee_shops get_nearby_dog_parks at h
    rw [hempty dist lat lng] at h
    dsimp only at h
    cases hc : fetchCategory (cafeOfElement dist lat lng) rc with
    | error e => rw [hc] at h; exact absurd h (by simp)
    | ok cafes =>
      rw [hc] at h
      dsimp only at h
      cases hd : fetchCategory (dogParkOfElement dist lat lng) rd with
      | error e => rw [hd] at h; exact absurd h (by simp)
      | ok dogs =>
        rw [hd] at h
        dsimp only at h
        injection h with h
        subst h
        exact ⟨rfl, rfl, rfl⟩
  · intro dist lat lng rc rd
    unfold enrich
    unfold get_nearby_parks
    have hbad : fetchCategory (parkOfElement dist lat lng) .badJson
        = .error .jsonDecodeError := rfl
    rw [hbad]

/-- C6 witness: the unparseable-body outcome is a concrete raising input, and
a concrete all-categories-failing run still produces a scored summary with
empty lists. -/
theorem C6_query_overpass_amended_witness :
    (∃ e, queryOverpass .badJson = .error e)
    ∧ emptyAmenityData.parks = [] ∧ emptyAmenityData.nearest_park_m = none
    ∧ emptyAmenityData.walkability_score = calculate_walkability_score emptyAmenityData := by
  obtain ⟨-, hiff, hcat, hrun, -⟩ := C6_query_overpass_amended
  obtain ⟨hp, hn, hw⟩ := hcat (fun _ _ _ _ => 0) 49 (-123) .httpError .httpError
    emptyAmenityData (hrun (fun _ _ _ _ => 0) 49 (-123))
  exact ⟨(hiff .badJson).mpr (Or.inl rfl), hp, hn, hw⟩

/-- C5: in the rate-limited remote mode (modelled from the spec), a query
receiving a retryable HTTP status (429/502/503/504) or a timeout on every
attempt is attempted exactly 3 times, every request fires at least the
minimum spacing after the previous one, consecutive attempts are separated by
the exponentially increasing backoff delay (`base * 2 ^ k` plus nonnegative
jitter, doubling each retry), and the empty list is returned; a query
receiving any other HTTP error is attempted exactly once and returns the
empty list immediately. -/
theorem C5_remote_retry (outcome : ℕ → RemoteOutcome) (base : ℚ) (jitter : ℕ → ℚ)
    (now lastReq : ℚ) (hj : ∀ k, 0 ≤ jitter k) (hb : 0 < base) :
    ((∀ k, outcome k = .retryableStatus ∨ outcome k = .timeout) →
      (remoteQuery outcome base jitter now lastReq).1 = []
      ∧ ∃ t0 t1 t2, (remoteQuery outcome base jitter now lastReq).2 = [t0, t1, t2]
          ∧ lastReq + minSpacing ≤ t0
          ∧ t0 + minSpacing ≤ t1
          ∧ t1 + minSpacing ≤ t2
          ∧ t0 + base * 2 ^ 0 ≤ t1
          ∧ t1 + base * 2 ^ 1 ≤ t2
          ∧ base * 2 ^ 0 < base * 2 ^ 1)
    ∧ (outcome 0 = .otherHttpError →
        remoteQuery outcome base jitter now lastReq
          = ([], [remoteAttemptTime now lastReq])) := by
  constructor
  · intro hr
    have heq : remoteQuery outcome base jitter now lastReq
        = ([], [remoteAttemptTime now lastReq,
            remoteAttemptTime (remoteAttemptTime now lastReq
              + (base * 2 ^ 0 + jitter 0)) (remoteAttemptTime now lastReq),
            remoteAttemptTime (remoteAttemptTime (remoteAttemptTime now lastReq
                + (base * 2 ^ 0 + jitter 0)) (remoteAttemptTime now lastReq)
              + (base * 2 ^ 1 + jitter 1))
              (remoteAttemptTime (remoteAttemptTime now lastReq
                + (base * 2 ^ 0 + jitter 0)) (remoteAttemptTime now lastReq))]) := by
      obtain h0 | h0 := hr 0 <;> obtain h1 | h1 := hr 1 <;> obtain h2 | h2 := hr 2 <;>
        simp only [remoteQuery, h0, h1, h2]
    refine ⟨by rw [heq], remoteAttemptTime now lastReq,
      remoteAttemptTime (remoteAttemptTime now lastReq
        + (base * 2 ^ 0 + jitter 0)) (remoteAttemptTime now lastReq),
      remoteAttemptTime (remoteAttemptTime (remoteAttemptTime now lastReq
          + (base * 2 ^ 0 + jitter 0)) (remoteAttemptTime now lastReq)
        + (base * 2 ^ 1 + jitter 1))
        (remoteAttemptTime (remoteAttemptTime now lastReq
          + (base * 2 ^ 0 + jitter 0)) (remoteAttemptTime now lastReq)),
      by rw [heq], le_max_right _ _, le_max_right _ _,
      le_max_right _ _, ?_, ?_, ?_⟩
    · calc remoteAttemptTime now lastReq + base * 2 ^ 0
          ≤ remoteAttemptTime now lastReq + (base * 2 ^ 0 + jitter 0) := by
            have := hj 0
            linarith
        _ ≤ remoteAttemptTime (remoteAttemptTime now lastReq
              + (base * 2 ^ 0 + jitter 0)) (remoteAttemptTime now lastReq) :=
            le_max_left _ _
    · calc remoteAttemptTime (remoteAttemptTime now lastReq
              + (base * 2 ^ 0 + jitter 0)) (remoteAttemptTime now lastReq)
            + base * 2 ^ 1
          ≤ remoteAttemptTime (remoteAttemptTime now lastReq
              + (base * 2 ^ 0 + jitter 0)) (remoteAttemptTime now lastReq)
            + (base * 2 ^ 1 + jitter 1) := by
            have := hj 1
            linarith
        _ ≤ _ := le_max_left _ _
    · have h20 : (2 : ℚ) ^ 0 = 1 := by norm_num
      have h21 : (2 : ℚ) ^ 1 = 2 := by norm_num
      rw [h20, h21]
      linarith
  · intro h0
    simp only [remoteQuery, h0]

/-- C5 witness: a concrete always-503 run makes exactly 3 spaced attempts and
returns `[]`; a concrete non-retryable-error run makes exactly 1 attempt. -/
theorem C5_remote_retry_witness :
    ((0 : ℚ) ≤ 0 ∧ (0 : ℚ) < 1)
    ∧ ((remoteQuery (fun _ => .retryableStatus) 1 (fun _ => 0) 0 0).1 = []
      ∧ ∃ t0 t1 t2, (remoteQuery (fun _ => .retryableStatus) 1 (fun _ => 0) 0 0).2
            = [t0, t1, t2]
          ∧ 0 + minSpacing ≤ t0
          ∧ t0 + minSpacing ≤ t1
          ∧ t1 + minSpacing ≤ t2
          ∧ t0 + 1 * 2 ^ 0 ≤ t1
          ∧ t1 + 1 * 2 ^ 1 ≤ t2
          ∧ (1 : ℚ) * 2 ^ 0 < 1 * 2 ^ 1)
    ∧ remoteQuery (fun _ => .otherHttpError) 1 (fun _ => 0) 0 0
        = ([], [remoteAttemptTime 0 0]) := by
  have h := C5_remote_retry (fun _ => .retryableStatus) 1 (fun _ => 0) 0 0
    (fun _ => le_refl 0) (by norm_num)
  have h2 := C5_remote_retry (fun _ => .otherHttpError) 1 (fun _ => 0) 0 0
    (fun _ => le_refl 0) (by norm_num)
  exact ⟨⟨le_refl 0, by norm_num⟩, h.1 (fun _ => Or.inl rfl), h2.2 rfl⟩

/-- C9: running `upsert_pois_for_listing` twice for the same listing over the
same two features (`osm_id`s unchanged, distances possibly changed) leaves
exactly one `points_of_interest` row per `osm_id` and exactly one
listing-POI link row per pair — carrying the distance passed in the second
call — and both calls return the POI ids in input order. -/
theorem C9_poi_upsert_idempotent (n0 lid : ℤ) (p1 p2 q1 q2 : PoiInput)
    (h12 : p1.osm_id ≠ p2.osm_id)
    (hq1 : q1.osm_id = p1.osm_id) (hq2 : q2.osm_id = p2.osm_id) :
    let s1 := upsert_pois_for_listing ⟨[], [], n0⟩ lid [p1, p2]
    let s2 := upsert_pois_for_listing s1.1 lid [q1, q2]
    ((s2.1.pois.filter fun r => r.osm_id == p1.osm_id).length = 1)
    ∧ ((s2.1.pois.filter fun r => r.osm_id == p2.osm_id).length = 1)
    ∧ (s2.1.links.filter fun r => r.listing_id == lid && r.poi_id == n0)
        = [⟨lid, n0, q1.distance_m⟩]
    ∧ (s2.1.links.filter fun r => r.listing_id == lid && r.poi_id == n0 + 1)
        = [⟨lid, n0 + 1, q2.distance_m⟩]
    ∧ s1.2 = [n0, n0 + 1]
    ∧ s2.2 = [n0, n0 + 1] := by
  have hb12 : (p1.osm_id == p2.osm_id) = false := beq_eq_false_iff_ne.mpr h12
  have hb21 : (p2.osm_id == p1.osm_id) = false := beq_eq_false_iff_ne.mpr (Ne.symm h12)
  have hbn : ((n0 : ℤ) == n0 + 1) = false := beq_eq_false_iff_ne.mpr (by omega)
  have hbn2 : ((n0 + 1 : ℤ) == n0) = false := beq_eq_false_iff_ne.mpr (by omega)
  have e1 : upsert_pois_for_listing ⟨[], [], n0⟩ lid [p1, p2]
      = (⟨[⟨n0, p1.osm_id, p1.typ, p1.name, p1.geometry⟩,
           ⟨n0 + 1, p2.osm_id, p2.typ, p2.name, p2.geometry⟩],
          [⟨lid, n0, p1.distance_m⟩, ⟨lid, n0 + 1, p2.distance_m⟩], n0 + 1 + 1⟩,
         [n0, n0 + 1]) := by
    simp [upsert_pois_for_listing, upsertPoisGo, findPoiId, upsertLink, hb12, hbn, hbn2]
  have e2 : upsert_pois_for_listing
      (⟨[⟨n0, p1.osm_id, p1.typ, p1.name, p1.geometry⟩,
         ⟨n0 + 1, p2.osm_id, p2.typ, p2.name, p2.geometry⟩],
        [⟨lid, n0, p1.distance_m⟩, ⟨lid, n0 + 1, p2.distance_m⟩], n0 + 1 + 1⟩ : PoiDB)
      lid [q1, q2]
      = (⟨[⟨n0, p1.osm_id, p1.typ, p1.name, p1.geometry⟩,
           ⟨n0 + 1, p2.osm_id, p2.typ, p2.name, p2.geometry⟩],
          [⟨lid, n0, q1.distance_m⟩, ⟨lid, n0 + 1, q2.distance_m⟩], n0 + 1 + 1⟩,
         [n0, n0 + 1]) := by
    simp [upsert_pois_for_listing, upsertPoisGo, findPoiId, upsertLink, hq1, hq2,
      hb12, hb21, hbn, hbn2]
  simp only [e1, e2]
  simp [hb12, hb21, hbn, hbn2]

/-- C9 witness: the two-call scenario at concrete inputs — one POI row per
`osm_id`, one link row per pair with the second call's distance, ids returned
in input order. -/
theorem C9_poi_upsert_idempotent_witness :
    samplePoiInputA.osm_id ≠ samplePoiInputB.osm_id
    ∧ (let s1 := upsert_pois_for_listing ⟨[], [], 1⟩ 7 [samplePoiInputA, samplePoiInputB]
       let s2 := upsert_pois_for_listing s1.1 7
         [{ samplePoiInputA with distance_m := 150 },
          { samplePoiInputB with distance_m := 250 }]
       ((s2.1.pois.filter fun r => r.osm_id == samplePoiInputA.osm_id).length = 1)
       ∧ ((s2.1.pois.filter fun r => r.osm_id == samplePoiInputB.osm_id).length = 1)
       ∧ (s2.1.links.filter fun r => r.listing_id == 7 && r.poi_id == 1)
           = [⟨7, 1, 150⟩]
       ∧ (s2.1.links.filter fun r => r.listing_id == 7 && r.poi_id == 1 + 1)
           = [⟨7, 1 + 1, 250⟩]
       ∧ s1.2 = [1, 1 + 1]
       ∧ s2.2 = [1, 1 + 1]) := by
  refine ⟨by decide, ?_⟩
  exact C9_poi_upsert_idempotent 1 7 samplePoiInputA samplePoiInputB
    { samplePoiInputA with distance_m := 150 }
    { samplePoiInputB with distance_m := 250 }
    (by decide) rfl rfl

end Domowik
